import Mathlib

/-!
Shallow embedding of the hyperswitch analytics metric
`ChallengeFlowCount::load_metrics`
(crates/analytics/src/auth_events/metrics/challenge_flow_count.rs) and of the
enum conversions in crates/router/src/types/transformers.rs, together with
proofs of the specification claims about them.

The query-engine crate (`crates/analytics/src/query.rs`, `types.rs`) and the
api-model crates are not part of the provided sources; the definitions for
those parts are modelled from the specification (each such definition carries
a doc comment starting `Modelled from the spec:`).  The metric definition
`load_metrics` itself and the conversions in transformers.rs are translated
directly from the source.
-/

namespace Hyperswitch

/-- Modelled from the spec: `Granularity` (api_models crate, not under src) is
an enumerated width of a time bucket in minutes, e.g. 15/30/60 minutes. -/
inductive Granularity
  | min15
  | min30
  | min60
deriving DecidableEq, Repr

/-- Modelled from the spec: `TimeRange` (api_models crate, not under src) is a
pair of timestamps bounding the query; start inclusive, end optional.
Timestamps (`PrimitiveDateTime`) are represented by integers. -/
structure TimeRange where
  start_time : Int
  end_time : Option Int
deriving DecidableEq, Repr

/-- Modelled from the spec: `SdkEventNames` (api_models crate, not under src);
only the variant used by the metric definition is represented. -/
inductive SdkEventNames
  | DisplayThreeDsSdk
deriving DecidableEq, Repr

/-- Modelled from the spec: the target data collection of a query builder
(`AnalyticsCollection`, analytics types module, not under src).  Only the
variant used by the metric plus one other are represented, so that "the
collection is never changed" is not vacuous. -/
inductive AnalyticsCollection
  | SdkEventsAnalytics
  | Payment
deriving DecidableEq, Repr

/-- Modelled from the spec: a rendered filter value.  The metric passes string
literals, an integer boolean flag and an `SdkEventNames` value; every value
type with a rendering rule is accepted. -/
inductive FilterValue
  | str (s : String)
  | int (n : Int)
  | event (e : SdkEventNames)
deriving DecidableEq, Repr

/-- Modelled from the spec: one filter clause of a query.  Filters are
equality / boolean-truth / time-bound predicates composed by logical AND. -/
inductive Filter
  | eq (column : String) (value : FilterValue)
  | boolEq (column : String) (flag : Int)
  | timeGe (column : String) (t : Int)
  | timeLe (column : String) (t : Int)
deriving DecidableEq, Repr

/-- The column name a filter clause constrains. -/
def Filter.column : Filter → String
  | .eq c _ => c
  | .boolEq c _ => c
  | .timeGe c _ => c
  | .timeLe c _ => c

/-- Modelled from the spec: an aggregate select expression — function kind,
optional source field (absent for count-star), optional output alias
(`Aggregate<F>` in the query crate, not under src). -/
inductive Aggregate
  | count (field : Option String) (al : Option String)
  | sum (field : Option String) (al : Option String)
  | minA (field : Option String) (al : Option String)
  | maxA (field : Option String) (al : Option String)
deriving DecidableEq, Repr

/-- The output alias of an aggregate expression. -/
def Aggregate.aliasOf : Aggregate → Option String
  | .count _ a => a
  | .sum _ a => a
  | .minA _ a => a
  | .maxA _ a => a

/-- Modelled from the spec: a select expression is an aggregate or the
backend-native time-bucketing expression requested by
`add_granularity_in_mins`. -/
inductive Select
  | aggregate (a : Aggregate)
  | timeBucket (g : Granularity)
deriving DecidableEq, Repr

/-- The output alias of a select expression; the time-bucket expression is
aliased `time_bucket`. -/
def Select.aliasOf : Select → Option String
  | .aggregate a => a.aliasOf
  | .timeBucket _ => some "time_bucket"

/-- Modelled from the spec: clause-construction failures (duplicate alias,
empty column name), surfaced at the call that added the clause. -/
inductive ClauseError
  | duplicateAlias (a : String)
  | emptyColumn
deriving DecidableEq, Repr

/-- Modelled from the spec: compilation-time failure of the query builder
(missing select list). -/
inductive BuildError
  | noSelectColumn
deriving DecidableEq, Repr

/-- Modelled from the spec: a backend-reported execution failure
(connectivity, timeout, malformed-at-backend query, permission). -/
inductive ExecError
  | connectivity
  | timeout
  | malformedQuery
  | permission
deriving DecidableEq, Repr

/-- Modelled from the spec: a post-processing (row deserialization) failure. -/
inductive PostProcessingError
  | deserializationFailed
deriving DecidableEq, Repr

/-- The error taxonomy of `MetricsError` (analytics types module): the four
disjoint failure kinds of the pipeline. -/
inductive MetricsError
  | ClauseError
  | QueryBuildingError
  | QueryExecutionFailure
  | PostProcessingFailure
deriving DecidableEq, Repr

/-- Modelled from the spec: the mutable query-builder accumulator — target
collection, ordered select expressions, ordered filters, group-by keys. -/
structure QueryBuilder where
  table : AnalyticsCollection
  columns : List Select
  filters : List Filter
  group_by : List String
deriving DecidableEq, Repr

namespace QueryBuilder

/-- Modelled from the spec: `QueryBuilder::new` binds the builder to one data
collection at construction. -/
def new (table : AnalyticsCollection) : QueryBuilder :=
  { table := table, columns := [], filters := [], group_by := [] }

/-- Modelled from the spec: appends one select expression; fails with a
`ClauseError` if the same alias is registered twice. -/
def add_select_column (qb : QueryBuilder) (e : Select) :
    Except ClauseError QueryBuilder :=
  match e.aliasOf with
  | some a =>
      if (qb.columns.filterMap Select.aliasOf).contains a then
        .error (.duplicateAlias a)
      else
        .ok { qb with columns := qb.columns ++ [e] }
  | none => .ok { qb with columns := qb.columns ++ [e] }

/-- Modelled from the spec: appends an equality predicate; fails with
`ClauseError` if the column name is empty. -/
def add_filter_clause (qb : QueryBuilder) (column : String)
    (value : FilterValue) : Except ClauseError QueryBuilder :=
  if column = "" then .error .emptyColumn
  else .ok { qb with filters := qb.filters ++ [.eq column value] }

/-- Modelled from the spec: appends a boolean predicate; fails with
`ClauseError` if the column name is empty. -/
def add_bool_filter_clause (qb : QueryBuilder) (column : String)
    (flag : Int) : Except ClauseError QueryBuilder :=
  if column = "" then .error .emptyColumn
  else .ok { qb with filters := qb.filters ++ [.boolEq column flag] }

/-- Modelled from the spec: requests the backend-native time-bucketing select
expression for the given granularity. -/
def add_granularity_in_mins (qb : QueryBuilder) (g : Granularity) :
    Except ClauseError QueryBuilder :=
  .ok { qb with columns := qb.columns ++ [.timeBucket g] }

/-- Modelled from the spec: appends a grouping key, order preserved; fails
with `ClauseError` if the column name is empty. -/
def add_group_by_clause (qb : QueryBuilder) (column : String) :
    Except ClauseError QueryBuilder :=
  if column = "" then .error .emptyColumn
  else .ok { qb with group_by := qb.group_by ++ [column] }

end QueryBuilder

/-- Modelled from the spec: `TimeRange::set_filter_clause` produces the filter
clauses bounding the query time window — start inclusive, end when present. -/
def TimeRange.set_filter_clause (tr : TimeRange) (qb : QueryBuilder) :
    Except ClauseError QueryBuilder :=
  let qb1 : QueryBuilder :=
    { qb with filters := qb.filters ++ [.timeGe "created_at" tr.start_time] }
  match tr.end_time with
  | some e => .ok { qb1 with filters := qb1.filters ++ [.timeLe "created_at" e] }
  | none => .ok qb1

/-- Modelled from the spec: `ReportSwitchExt::switch` converts a
clause-construction error into the metric error space. -/
def switchClause {α : Type} : Except ClauseError α → Except MetricsError α
  | .ok a => .ok a
  | .error _ => .error .ClauseError

/-- Modelled from the spec: query compilation — pure, fails with a building
error when no select column was ever added; the compiled artifact is
represented by the validated clause lists themselves. -/
def compile (qb : QueryBuilder) : Except BuildError QueryBuilder :=
  if qb.columns.isEmpty then .error .noSelectColumn else .ok qb

/-- Modelled from the spec: `AuthEventMetricRow` (auth_events metrics module,
not under src): the typed row of this metric — a count and the time-bucket
tag. -/
structure AuthEventMetricRow where
  count : Option Int
  time_bucket : Option String
deriving DecidableEq, Repr

/-- Modelled from the spec: `AuthEventMetricsBucketIdentifier` (api_models
crate, not under src): the value-equality bucket key built by `new` from the
row's time bucket. -/
structure AuthEventMetricsBucketIdentifier where
  time_bucket : Option String
deriving DecidableEq, Repr

/-- Modelled from the spec: `AuthEventMetricsBucketIdentifier::new`. -/
def AuthEventMetricsBucketIdentifier.new (tb : Option String) :
    AuthEventMetricsBucketIdentifier :=
  { time_bucket := tb }

/-- Modelled from the spec: `execute_query` compiles the builder and, on
success, submits the compiled query to the backend handle; the nested result
separates the build failure (outer) from the backend failure (inner). -/
def execute_query (qb : QueryBuilder)
    (pool : QueryBuilder → Except ExecError (List AuthEventMetricRow)) :
    Except BuildError (Except ExecError (List AuthEventMetricRow)) :=
  (compile qb).map pool

/-- `collect::<Result<_, _>>`: sequences a list of fallible values,
short-circuiting at the first error. -/
def listCollect {ε α : Type} : List (Except ε α) → Except ε (List α)
  | [] => .ok []
  | x :: xs =>
      match x with
      | .error e => .error e
      | .ok a =>
          match listCollect xs with
          | .error e => .error e
          | .ok rest => .ok (a :: rest)

/-- The per-row post-processing closure of `load_metrics`
(challenge_flow_count.rs lines 94–99): pairs the bucket identifier built from
the row's time bucket with the row itself; unconditionally `Ok`. -/
def rowEntry (i : AuthEventMetricRow) :
    Except PostProcessingError
      (AuthEventMetricsBucketIdentifier × AuthEventMetricRow) :=
  .ok (AuthEventMetricsBucketIdentifier.new i.time_bucket, i)

/-- The post-processing fold of `load_metrics`: maps every row through
`rowEntry` and collects the fallible results. -/
def collectRows (rows : List AuthEventMetricRow) :
    Except PostProcessingError
      (List (AuthEventMetricsBucketIdentifier × AuthEventMetricRow)) :=
  listCollect (rows.map rowEntry)

/-- The clause-construction phase of `ChallengeFlowCount::load_metrics`
(challenge_flow_count.rs lines 38–86), translated statement by statement:
bind the builder to `SdkEventsAnalytics`, add the count-star select aliased
`count`, the granularity select when present, the tenant filter
(`merchant_id` = publishable_key) and the five event filters, the time-range
filters, and the `time_bucket` group-by when a granularity is present. -/
def buildQuery (publishable_key : String) (granularity : Option Granularity)
    (time_range : TimeRange) : Except MetricsError QueryBuilder := do
  let qb := QueryBuilder.new AnalyticsCollection.SdkEventsAnalytics
  let qb ← switchClause
    (qb.add_select_column (.aggregate (.count none (some "count"))))
  let qb ← match granularity with
    | some g => switchClause (qb.add_granularity_in_mins g)
    | none => pure qb
  let qb ← switchClause
    (qb.add_filter_clause "merchant_id" (.str publishable_key))
  let qb ← switchClause (qb.add_bool_filter_clause "first_event" 1)
  let qb ← switchClause (qb.add_filter_clause "category" (.str "USER_EVENT"))
  let qb ← switchClause (qb.add_filter_clause "log_type" (.str "INFO"))
  let qb ← switchClause
    (qb.add_filter_clause "event_name" (.event .DisplayThreeDsSdk))
  let qb ← switchClause (qb.add_filter_clause "value" (.str "C"))
  let qb ← switchClause (time_range.set_filter_clause qb)
  let qb ← match granularity with
    | some _ => switchClause (qb.add_group_by_clause "time_bucket")
    | none => pure qb
  pure qb

/-- `ChallengeFlowCount::load_metrics` (challenge_flow_count.rs lines 30–105):
clause construction, then `execute_query` with the outer failure relabelled
`QueryBuildingError` and the inner failure `QueryExecutionFailure`, then the
post-processing fold into the deduplicating set of
`(AuthEventMetricsBucketIdentifier, AuthEventMetricRow)` pairs, with its
failure relabelled `PostProcessingFailure`. -/
def load_metrics (publishable_key : String) (granularity : Option Granularity)
    (time_range : TimeRange)
    (pool : QueryBuilder → Except ExecError (List AuthEventMetricRow)) :
    Except MetricsError
      (Finset (AuthEventMetricsBucketIdentifier × AuthEventMetricRow)) :=
  match buildQuery publishable_key granularity time_range with
  | .error e => .error e
  | .ok qb =>
      match execute_query qb pool with
      | .error _ => .error .QueryBuildingError
      | .ok inner =>
          match inner with
          | .error _ => .error .QueryExecutionFailure
          | .ok rows =>
              match collectRows rows with
              | .error _ => .error .PostProcessingFailure
              | .ok entries => .ok entries.toFinset

/-- The builder state `buildQuery` reaches: collection `SdkEventsAnalytics`;
the count-star select followed by the optional time-bucket select; the tenant
filter first, then the five event filters, then the time-range filters; the
optional `time_bucket` group-by. -/
def explicitBuilder (publishable_key : String)
    (granularity : Option Granularity) (time_range : TimeRange) :
    QueryBuilder :=
  { table := AnalyticsCollection.SdkEventsAnalytics
    columns := .aggregate (.count none (some "count")) ::
      (match granularity with
        | some g => [.timeBucket g]
        | none => [])
    filters := [.eq "merchant_id" (.str publishable_key),
        .boolEq "first_event" 1,
        .eq "category" (.str "USER_EVENT"),
        .eq "log_type" (.str "INFO"),
        .eq "event_name" (.event .DisplayThreeDsSdk),
        .eq "value" (.str "C"),
        .timeGe "created_at" time_range.start_time] ++
      (match time_range.end_time with
        | some e => [.timeLe "created_at" e]
        | none => [])
    group_by := match granularity with
      | some _ => ["time_bucket"]
      | none => [] }

theorem buildQuery_eq (publishable_key : String)
    (granularity : Option Granularity) (time_range : TimeRange) :
    buildQuery publishable_key granularity time_range =
      .ok (explicitBuilder publishable_key granularity time_range) := by
  obtain ⟨s, e⟩ := time_range
  cases granularity <;> cases e <;> rfl

theorem collectRows_ok (rows : List AuthEventMetricRow) :
    collectRows rows =
      .ok (rows.map fun i =>
        (AuthEventMetricsBucketIdentifier.new i.time_bucket, i)) := by
  induction rows with
  | nil => rfl
  | cons r rest ih =>
      simp only [collectRows, List.map_cons, listCollect, rowEntry] at *
      rw [ih]

theorem load_metrics_ok (publishable_key : String)
    (granularity : Option Granularity) (time_range : TimeRange)
    (pool : QueryBuilder → Except ExecError (List AuthEventMetricRow))
    (rows : List AuthEventMetricRow) (qb : QueryBuilder)
    (hq : buildQuery publishable_key granularity time_range = .ok qb)
    (hp : pool qb = .ok rows) :
    load_metrics publishable_key granularity time_range pool =
      .ok (rows.map fun i =>
        (AuthEventMetricsBucketIdentifier.new i.time_bucket, i)).toFinset := by
  have hqe := buildQuery_eq publishable_key granularity time_range
  rw [hq] at hqe
  injection hqe with hqe
  subst hqe
  have hcompile :
      compile (explicitBuilder publishable_key granularity time_range) =
        .ok (explicitBuilder publishable_key granularity time_range) := by
    unfold compile explicitBuilder
    rfl
  simp only [load_metrics, hq, execute_query, hcompile, Except.map, hp,
    collectRows_ok]

/-- Claim C1: for every invocation of `ChallengeFlowCount::load_metrics` with
tenant key (publishable_key) X, the built query contains exactly one filter
clause scoping it to X (column `merchant_id`, value X), and this filter is
added before every other filter clause of the query. -/
theorem tenant_filter_unique_and_first (publishable_key : String)
    (granularity : Option Granularity) (time_range : TimeRange) :
    ∃ qb, buildQuery publishable_key granularity time_range = .ok qb ∧
      qb.filters.head? =
        some (.eq "merchant_id" (.str publishable_key)) ∧
      qb.filters.countP (fun f => f.column = "merchant_id") = 1 := by
  refine ⟨explicitBuilder publishable_key granularity time_range,
    buildQuery_eq publishable_key granularity time_range, ?_, ?_⟩
  · obtain ⟨s, e⟩ := time_range
    cases e <;> rfl
  · obtain ⟨s, e⟩ := time_range
    cases e <;> simp [explicitBuilder, Filter.column, List.countP,
      List.countP.go]

/-- Claim C2: whenever the backend handle reports a transport (I/O) error
during execution, `load_metrics` returns `MetricsError.QueryExecutionFailure`
— never `ClauseError`, `QueryBuildingError`, or `PostProcessingFailure`: the
execution-stage failure kind is produced by that stage alone. -/
theorem transport_error_is_execution_failure (publishable_key : String)
    (granularity : Option Granularity) (time_range : TimeRange)
    (pool : QueryBuilder → Except ExecError (List AuthEventMetricRow))
    (e : ExecError) (qb : QueryBuilder)
    (hq : buildQuery publishable_key granularity time_range = .ok qb)
    (hp : pool qb = .error e) :
    load_metrics publishable_key granularity time_range pool =
      .error MetricsError.QueryExecutionFailure := by
  have hqe := buildQuery_eq publishable_key granularity time_range
  rw [hq] at hqe
  injection hqe with hqe
  subst hqe
  have hcompile :
      compile (explicitBuilder publishable_key granularity time_range) =
        .ok (explicitBuilder publishable_key granularity time_range) := by
    unfold compile explicitBuilder
    rfl
  simp only [load_metrics, hq, execute_query, hcompile, Except.map, hp]

/-- Witness for C2 at a concrete invocation: a connectivity error from the
backend yields `QueryExecutionFailure`. -/
theorem transport_error_is_execution_failure_witness :
    load_metrics "pk_live_1" none ⟨0, none⟩ (fun _ => .error .connectivity) =
      .error MetricsError.QueryExecutionFailure :=
  transport_error_is_execution_failure "pk_live_1" none ⟨0, none⟩
    (fun _ => .error .connectivity) .connectivity
    (explicitBuilder "pk_live_1" none ⟨0, none⟩)
    (buildQuery_eq "pk_live_1" none ⟨0, none⟩) rfl

/-- Claim C5: with `granularity = None` no time-bucketing select expression
and no group-by clause is added (the query is a single unbucketed aggregate);
with `granularity = Some g` both the granularity select and the group-by on
`time_bucket` are added. -/
theorem granularity_controls_bucketing (publishable_key : String)
    (time_range : TimeRange) :
    (∀ qb, buildQuery publishable_key none time_range = .ok qb →
        qb.columns = [.aggregate (.count none (some "count"))] ∧
        qb.group_by = []) ∧
    (∀ g qb, buildQuery publishable_key (some g) time_range = .ok qb →
        qb.columns =
          [.aggregate (.count none (some "count")), .timeBucket g] ∧
        qb.group_by = ["time_bucket"]) := by
  constructor
  · intro qb hq
    rw [buildQuery_eq] at hq
    injection hq with hq
    subst hq
    exact ⟨rfl, rfl⟩
  · intro g qb hq
    rw [buildQuery_eq] at hq
    injection hq with hq
    subst hq
    exact ⟨rfl, rfl⟩

/-- Witness for C5 at concrete invocations, both with and without a
granularity. -/
theorem granularity_controls_bucketing_witness :
    ((explicitBuilder "pk" none ⟨0, none⟩).columns =
        [.aggregate (.count none (some "count"))] ∧
      (explicitBuilder "pk" none ⟨0, none⟩).group_by = []) ∧
    ((explicitBuilder "pk" (some .min15) ⟨0, none⟩).columns =
        [.aggregate (.count none (some "count")), .timeBucket .min15] ∧
      (explicitBuilder "pk" (some .min15) ⟨0, none⟩).group_by =
        ["time_bucket"]) :=
  ⟨(granularity_controls_bucketing "pk" ⟨0, none⟩).1 _
      (buildQuery_eq "pk" none ⟨0, none⟩),
    (granularity_controls_bucketing "pk" ⟨0, none⟩).2 .min15 _
      (buildQuery_eq "pk" (some .min15) ⟨0, none⟩)⟩

/-- Claim C6: whenever the backend successfully returns an empty list of
rows, `load_metrics` returns `Ok` with an empty set, not an error. -/
theorem empty_rows_give_empty_set (publishable_key : String)
    (granularity : Option Granularity) (time_range : TimeRange)
    (pool : QueryBuilder → Except ExecError (List AuthEventMetricRow))
    (qb : QueryBuilder)
    (hq : buildQuery publishable_key granularity time_range = .ok qb)
    (hp : pool qb = .ok []) :
    load_metrics publishable_key granularity time_range pool = .ok ∅ := by
  rw [load_metrics_ok publishable_key granularity time_range pool [] qb hq hp]
  rfl

/-- Witness for C6 at a concrete invocation with a backend returning zero
rows. -/
theorem empty_rows_give_empty_set_witness :
    load_metrics "pk" (some .min30) ⟨0, some 3600⟩ (fun _ => .ok []) =
      .ok ∅ :=
  empty_rows_give_empty_set "pk" (some .min30) ⟨0, some 3600⟩
    (fun _ => .ok []) (explicitBuilder "pk" (some .min30) ⟨0, some 3600⟩)
    (buildQuery_eq "pk" (some .min30) ⟨0, some 3600⟩) rfl

/-- Claim C3: if the executed query returns two rows with equal bucket
identifiers (equal `time_bucket`) but unequal payloads, post-processing
retains both as distinct elements of the resulting
`(AuthEventMetricsBucketIdentifier, AuthEventMetricRow)` set: the set is
keyed on the full pair, not on the bucket identifier alone. -/
theorem composite_key_retains_both_rows (publishable_key : String)
    (granularity : Option Granularity) (time_range : TimeRange)
    (pool : QueryBuilder → Except ExecError (List AuthEventMetricRow))
    (rows : List AuthEventMetricRow) (qb : QueryBuilder)
    (r1 r2 : AuthEventMetricRow)
    (hq : buildQuery publishable_key granularity time_range = .ok qb)
    (hp : pool qb = .ok rows)
    (h1 : r1 ∈ rows) (h2 : r2 ∈ rows)
    (_hb : r1.time_bucket = r2.time_bucket) (hne : r1 ≠ r2) :
    ∃ s, load_metrics publishable_key granularity time_range pool = .ok s ∧
      (AuthEventMetricsBucketIdentifier.new r1.time_bucket, r1) ∈ s ∧
      (AuthEventMetricsBucketIdentifier.new r2.time_bucket, r2) ∈ s ∧
      (AuthEventMetricsBucketIdentifier.new r1.time_bucket, r1) ≠
        (AuthEventMetricsBucketIdentifier.new r2.time_bucket, r2) := by
  refine ⟨_,
    load_metrics_ok publishable_key granularity time_range pool rows qb hq hp,
    ?_, ?_, ?_⟩
  · exact List.mem_toFinset.2 (List.mem_map_of_mem _ h1)
  · exact List.mem_toFinset.2 (List.mem_map_of_mem _ h2)
  · intro hcontra
    exact hne (congrArg Prod.snd hcontra)

/-- Witness for C3 at a concrete invocation: two rows tagged with the same
time bucket but different counts are both in the result set. -/
theorem composite_key_retains_both_rows_witness :
    ∃ s, load_metrics "pk" (some .min15) ⟨0, some 900⟩
        (fun _ => .ok [⟨some 1, some "b0"⟩, ⟨some 2, some "b0"⟩]) = .ok s ∧
      (AuthEventMetricsBucketIdentifier.new (some "b0"),
        (⟨some 1, some "b0"⟩ : AuthEventMetricRow)) ∈ s ∧
      (AuthEventMetricsBucketIdentifier.new (some "b0"),
        (⟨some 2, some "b0"⟩ : AuthEventMetricRow)) ∈ s ∧
      (AuthEventMetricsBucketIdentifier.new (some "b0"),
        (⟨some 1, some "b0"⟩ : AuthEventMetricRow)) ≠
        (AuthEventMetricsBucketIdentifier.new (some "b0"),
          (⟨some 2, some "b0"⟩ : AuthEventMetricRow)) :=
  composite_key_retains_both_rows "pk" (some .min15) ⟨0, some 900⟩
    (fun _ => .ok [⟨some 1, some "b0"⟩, ⟨some 2, some "b0"⟩])
    [⟨some 1, some "b0"⟩, ⟨some 2, some "b0"⟩]
    (explicitBuilder "pk" (some .min15) ⟨0, some 900⟩)
    ⟨some 1, some "b0"⟩ ⟨some 2, some "b0"⟩
    (buildQuery_eq "pk" (some .min15) ⟨0, some 900⟩) rfl
    (by decide) (by decide) rfl (by decide)

/-- Claim C4: for every non-empty list of rows returned by the backend with
pairwise-distinct bucket keys (`time_bucket`), post-processing yields a set
whose cardinality equals the number of rows, and the set of bucket
identifiers occurring in it is exactly the set of the rows' bucket keys, each
occurring once. -/
theorem distinct_bucket_keys_bijective (publishable_key : String)
    (granularity : Option Granularity) (time_range : TimeRange)
    (pool : QueryBuilder → Except ExecError (List AuthEventMetricRow))
    (rows : List AuthEventMetricRow) (qb : QueryBuilder)
    (hq : buildQuery publishable_key granularity time_range = .ok qb)
    (hp : pool qb = .ok rows)
    (_hne : rows ≠ [])
    (hdist : rows.Pairwise (fun a b => a.time_bucket ≠ b.time_bucket)) :
    ∃ s, load_metrics publishable_key granularity time_range pool = .ok s ∧
      s.card = rows.length ∧
      s.image Prod.fst =
        (rows.map fun i =>
          AuthEventMetricsBucketIdentifier.new i.time_bucket).toFinset ∧
      (s.image Prod.fst).card = s.card := by
  refine ⟨_,
    load_metrics_ok publishable_key granularity time_range pool rows qb hq hp,
    ?_, ?_, ?_⟩
  case _ =>
    have hnodup : (rows.map fun i =>
        (AuthEventMetricsBucketIdentifier.new i.time_bucket, i)).Nodup := by
      refine (List.pairwise_map).2 (hdist.imp ?_)
      intro a b hab hcontra
      exact hab (congrArg (fun p => p.1.time_bucket) hcontra)
    rw [List.toFinset_card_of_nodup hnodup, List.length_map]
  case _ =>
    ext x
    simp only [Finset.mem_image, List.mem_toFinset, List.mem_map]
    constructor
    · rintro ⟨p, ⟨r, hr, rfl⟩, rfl⟩
      exact ⟨r, hr, rfl⟩
    · rintro ⟨r, hr, rfl⟩
      exact ⟨(AuthEventMetricsBucketIdentifier.new r.time_bucket, r),
        ⟨r, hr, rfl⟩, rfl⟩
  case _ =>
    refine Finset.card_image_of_injOn ?_
    intro p hp1 q hq1 hfst
    simp only [Finset.mem_coe, List.mem_toFinset, List.mem_map] at hp1 hq1
    obtain ⟨a, ha, rfl⟩ := hp1
    obtain ⟨b, hb, rfl⟩ := hq1
    simp only at hfst
    have htb : a.time_bucket = b.time_bucket :=
      congrArg AuthEventMetricsBucketIdentifier.time_bucket hfst
    have hsymm : Symmetric
        (fun a b : AuthEventMetricRow => a.time_bucket ≠ b.time_bucket) := by
      intro x y h heq
      exact h heq.symm
    have hab : a = b := by
      by_contra hcontra
      exact (hdist.forall hsymm ha hb hcontra) htb
    subst hab
    rfl

/-- Witness for C4 at a concrete invocation: four rows with distinct
15-minute boundaries yield a four-element set with four distinct bucket
identifiers. -/
theorem distinct_bucket_keys_bijective_witness :
    ∃ s, load_metrics "pk" (some .min15) ⟨0, some 3600⟩
        (fun _ => .ok [⟨some 1, some "t0"⟩, ⟨some 1, some "t15"⟩,
          ⟨some 1, some "t30"⟩, ⟨some 1, some "t45"⟩]) = .ok s ∧
      s.card = ([⟨some 1, some "t0"⟩, ⟨some 1, some "t15"⟩,
        ⟨some 1, some "t30"⟩,
        (⟨some 1, some "t45"⟩ : AuthEventMetricRow)]).length ∧
      s.image Prod.fst =
        (([⟨some 1, some "t0"⟩, ⟨some 1, some "t15"⟩, ⟨some 1, some "t30"⟩,
          (⟨some 1, some "t45"⟩ : AuthEventMetricRow)]).map fun i =>
            AuthEventMetricsBucketIdentifier.new i.time_bucket).toFinset ∧
      (s.image Prod.fst).card = s.card :=
  distinct_bucket_keys_bijective "pk" (some .min15) ⟨0, some 3600⟩
    (fun _ => .ok [⟨some 1, some "t0"⟩, ⟨some 1, some "t15"⟩,
      ⟨some 1, some "t30"⟩, ⟨some 1, some "t45"⟩])
    [⟨some 1, some "t0"⟩, ⟨some 1, some "t15"⟩, ⟨some 1, some "t30"⟩,
      ⟨some 1, some "t45"⟩]
    (explicitBuilder "pk" (some .min15) ⟨0, some 3600⟩)
    (buildQuery_eq "pk" (some .min15) ⟨0, some 3600⟩) rfl
    (by decide) (by decide)

/-- Claim C7: the query builder is bound to exactly one data collection
(`AnalyticsCollection.SdkEventsAnalytics`) at construction, no builder
operation changes the target collection, and the collection of the fully
built query is `SdkEventsAnalytics` regardless of the tenant key, granularity
or time range supplied. -/
theorem builder_collection_fixed :
    (∀ c, (QueryBuilder.new c).table = c) ∧
    (∀ (qb : QueryBuilder) e qb', qb.add_select_column e = .ok qb' →
        qb'.table = qb.table) ∧
    (∀ (qb : QueryBuilder) g qb', qb.add_granularity_in_mins g = .ok qb' →
        qb'.table = qb.table) ∧
    (∀ (qb : QueryBuilder) c v qb', qb.add_filter_clause c v = .ok qb' →
        qb'.table = qb.table) ∧
    (∀ (qb : QueryBuilder) c n qb', qb.add_bool_filter_clause c n = .ok qb' →
        qb'.table = qb.table) ∧
    (∀ (qb : QueryBuilder) c qb', qb.add_group_by_clause c = .ok qb' →
        qb'.table = qb.table) ∧
    (∀ tr (qb : QueryBuilder) qb', TimeRange.set_filter_clause tr qb = .ok qb' →
        qb'.table = qb.table) ∧
    (∀ pk g tr qb, buildQuery pk g tr = .ok qb →
        qb.table = AnalyticsCollection.SdkEventsAnalytics) := by
  refine ⟨fun _ => rfl, ?_, ?_, ?_, ?_, ?_, ?_, ?_⟩
  · intro qb e qb' h
    unfold QueryBuilder.add_select_column at h
    split at h
    · split at h
      · exact absurd h (by simp)
      · injection h with h
        subst h
        rfl
    · injection h with h
      subst h
      rfl
  · intro qb g qb' h
    injection h with h
    subst h
    rfl
  · intro qb c v qb' h
    unfold QueryBuilder.add_filter_clause at h
    split at h
    · exact absurd h (by simp)
    · injection h with h
      subst h
      rfl
  · intro qb c n qb' h
    unfold QueryBuilder.add_bool_filter_clause at h
    split at h
    · exact absurd h (by simp)
    · injection h with h
      subst h
      rfl
  · intro qb c qb' h
    unfold QueryBuilder.add_group_by_clause at h
    split at h
    · exact absurd h (by simp)
    · injection h with h
      subst h
      rfl
  · intro tr qb qb' h
    unfold TimeRange.set_filter_clause at h
    split at h
    · injection h with h
      subst h
      rfl
    · injection h with h
      subst h
      rfl
  · intro pk g tr qb h
    rw [buildQuery_eq] at h
    injection h with h
    subst h
    rfl

/-- Witness for C7 at concrete inputs: the freshly constructed builder, one
filter-addition step, and the fully built query all carry the
`SdkEventsAnalytics` collection. -/
theorem builder_collection_fixed_witness :
    ((QueryBuilder.new AnalyticsCollection.SdkEventsAnalytics).table =
        AnalyticsCollection.SdkEventsAnalytics) ∧
    (({ table := AnalyticsCollection.SdkEventsAnalytics, columns := [],
        filters := [.eq "merchant_id" (.str "pk")],
        group_by := [] } : QueryBuilder).table =
        (QueryBuilder.new AnalyticsCollection.SdkEventsAnalytics).table) ∧
    ((explicitBuilder "pk" none ⟨0, none⟩).table =
        AnalyticsCollection.SdkEventsAnalytics) :=
  ⟨builder_collection_fixed.1 AnalyticsCollection.SdkEventsAnalytics,
    builder_collection_fixed.2.2.2.1
      (QueryBuilder.new AnalyticsCollection.SdkEventsAnalytics)
      "merchant_id" (.str "pk")
      { table := AnalyticsCollection.SdkEventsAnalytics, columns := [],
        filters := [.eq "merchant_id" (.str "pk")], group_by := [] }
      (by rfl),
    builder_collection_fixed.2.2.2.2.2.2.2 "pk" none ⟨0, none⟩
      (explicitBuilder "pk" none ⟨0, none⟩)
      (buildQuery_eq "pk" none ⟨0, none⟩)⟩

/-- Claim C8: the per-row post-processing closure of `load_metrics` returns
`Ok` unconditionally, so the fold into the
`(AuthEventMetricsBucketIdentifier, AuthEventMetricRow)` set always succeeds
and, whenever execution succeeds, the whole call returns `Ok` — the
`PostProcessingFailure` branch is unreachable. -/
theorem post_processing_never_fails :
    (∀ rows, collectRows rows =
        .ok (rows.map fun i =>
          (AuthEventMetricsBucketIdentifier.new i.time_bucket, i))) ∧
    (∀ pk g tr pool rows qb, buildQuery pk g tr = .ok qb →
        pool qb = .ok rows →
        load_metrics pk g tr pool =
          .ok (rows.map fun i =>
            (AuthEventMetricsBucketIdentifier.new i.time_bucket,
              i)).toFinset) :=
  ⟨collectRows_ok, fun pk g tr pool rows qb hq hp =>
    load_metrics_ok pk g tr pool rows qb hq hp⟩

/-- Witness for C8 at a concrete invocation: with one returned row the call
returns the singleton set, not `PostProcessingFailure`. -/
theorem post_processing_never_fails_witness :
    collectRows [⟨some 7, none⟩] =
      .ok [(AuthEventMetricsBucketIdentifier.new none,
        (⟨some 7, none⟩ : AuthEventMetricRow))] ∧
    load_metrics "pk" none ⟨0, none⟩ (fun _ => .ok [⟨some 7, none⟩]) =
      .ok ([(AuthEventMetricsBucketIdentifier.new none,
        (⟨some 7, none⟩ : AuthEventMetricRow))]).toFinset :=
  ⟨post_processing_never_fails.1 [⟨some 7, none⟩],
    post_processing_never_fails.2 "pk" none ⟨0, none⟩
      (fun _ => .ok [⟨some 7, none⟩]) [⟨some 7, none⟩]
      (explicitBuilder "pk" none ⟨0, none⟩)
      (buildQuery_eq "pk" none ⟨0, none⟩) rfl⟩

/-! ### crates/router/src/types/transformers.rs -/

/-- Modelled from the spec: `MinorUnit` (common_utils crate, not under src) —
an integral money amount; the conversions copy it without inspection. -/
abbrev MinorUnit := Int

/-- Modelled from the spec: the `Currency` enum (common_enums crate, not
under src); the conversions copy it without inspection, so it is represented
by an opaque-but-decidable placeholder. -/
abbrev Currency := Nat

/-- Modelled from the spec: `PrimitiveDateTime` (time crate, not under src),
represented by an integer timestamp. -/
abbrev PrimitiveDateTime := Int

/-- Modelled from the spec: `pii::SecretSerdeValue` (metadata payload, not
under src); copied without inspection. -/
abbrev SecretSerdeValue := String

namespace storage_enums

/-- `storage_enums::AttemptStatus`: the variant list is exactly the set of
arms of the exhaustive match in transformers.rs lines 149–179. -/
inductive AttemptStatus
  | Started
  | AuthenticationFailed
  | RouterDeclined
  | AuthenticationPending
  | AuthenticationSuccessful
  | Authorized
  | AuthorizationFailed
  | Charged
  | Authorizing
  | CodInitiated
  | Voided
  | VoidInitiated
  | CaptureInitiated
  | CaptureFailed
  | VoidFailed
  | AutoRefunded
  | PartialCharged
  | PartialChargedAndChargeable
  | Unresolved
  | Pending
  | Failure
  | PaymentMethodAwaited
  | ConfirmationAwaited
  | DeviceDataCollectionPending
deriving DecidableEq, Repr

/-- `storage_enums::CaptureStatus`: the variants produced by the conversion
in transformers.rs lines 149–155. -/
inductive CaptureStatus
  | Charged
  | Pending
  | Failed
deriving DecidableEq, Repr

/-- `storage_enums::MandateAmountData` (fields as copied in transformers.rs
lines 454–464). -/
structure MandateAmountData where
  amount : MinorUnit
  currency : Currency
  start_date : Option PrimitiveDateTime
  end_date : Option PrimitiveDateTime
  metadata : Option SecretSerdeValue
deriving DecidableEq, Repr

/-- `storage_enums::MandateDataType` (variants as matched in transformers.rs
lines 183–205). -/
inductive MandateDataType
  | SingleUse (d : MandateAmountData)
  | MultiUse (d : Option MandateAmountData)
deriving DecidableEq, Repr

end storage_enums

/-- `errors::ApiErrorResponse`, restricted to the variant produced by the
conversion in transformers.rs lines 175–177. -/
inductive ApiErrorResponse
  | PreconditionFailed (message : String)
deriving DecidableEq, Repr

/-- `ForeignTryFrom<storage_enums::AttemptStatus> for
storage_enums::CaptureStatus` (transformers.rs lines 143–181), translated arm
by arm. -/
def storage_enums.CaptureStatus.foreign_try_from :
    storage_enums.AttemptStatus →
      Except ApiErrorResponse storage_enums.CaptureStatus
  | .Charged | .PartialCharged => .ok .Charged
  | .Pending | .CaptureInitiated => .ok .Pending
  | .Failure | .CaptureFailed => .ok .Failed
  | .Started | .AuthenticationFailed | .RouterDeclined
  | .AuthenticationPending | .AuthenticationSuccessful | .Authorized
  | .AuthorizationFailed | .Authorizing | .CodInitiated | .Voided
  | .VoidInitiated | .VoidFailed | .AutoRefunded | .Unresolved
  | .PaymentMethodAwaited | .ConfirmationAwaited
  | .DeviceDataCollectionPending | .PartialChargedAndChargeable =>
      .error (.PreconditionFailed
        "AttemptStatus must be one of these for multiple partial captures [Charged, PartialCharged, Pending, CaptureInitiated, Failure, CaptureFailed]")

namespace payments

/-- `payments::MandateAmountData` (api_models crate; fields as copied in
transformers.rs lines 387–397). -/
structure MandateAmountData where
  amount : MinorUnit
  currency : Currency
  start_date : Option PrimitiveDateTime
  end_date : Option PrimitiveDateTime
  metadata : Option SecretSerdeValue
deriving DecidableEq, Repr

/-- `payments::MandateType` (api_models crate; variants as matched in
transformers.rs lines 183–192). -/
inductive MandateType
  | SingleUse (d : MandateAmountData)
  | MultiUse (d : Option MandateAmountData)
deriving DecidableEq, Repr

end payments

/-- `ForeignFrom<payments::MandateAmountData> for
storage_enums::MandateAmountData` (transformers.rs lines 454–464): copies the
five fields unchanged. -/
def storage_enums.MandateAmountData.foreign_from
    (d : payments.MandateAmountData) : storage_enums.MandateAmountData :=
  { amount := d.amount
    currency := d.currency
    start_date := d.start_date
    end_date := d.end_date
    metadata := d.metadata }

/-- `ForeignFrom<storage_enums::MandateAmountData> for
payments::MandateAmountData` (transformers.rs lines 387–397): copies the five
fields unchanged. -/
def payments.MandateAmountData.foreign_from
    (d : storage_enums.MandateAmountData) : payments.MandateAmountData :=
  { amount := d.amount
    currency := d.currency
    start_date := d.start_date
    end_date := d.end_date
    metadata := d.metadata }

/-- `ForeignFrom<payments::MandateType> for storage_enums::MandateDataType`
(transformers.rs lines 183–192). -/
def storage_enums.MandateDataType.foreign_from :
    payments.MandateType → storage_enums.MandateDataType
  | .SingleUse inner =>
      .SingleUse (storage_enums.MandateAmountData.foreign_from inner)
  | .MultiUse inner =>
      .MultiUse (inner.map storage_enums.MandateAmountData.foreign_from)

/-- `ForeignFrom<storage_enums::MandateDataType> for payments::MandateType`
(transformers.rs lines 194–205). -/
def payments.MandateType.foreign_from :
    storage_enums.MandateDataType → payments.MandateType
  | .SingleUse inner =>
      .SingleUse (payments.MandateAmountData.foreign_from inner)
  | .MultiUse inner =>
      .MultiUse (inner.map payments.MandateAmountData.foreign_from)

/-- Claim C9: `ForeignTryFrom<AttemptStatus> for CaptureStatus` returns `Ok`
if and only if the input is one of Charged, PartialCharged, Pending,
CaptureInitiated, Failure, CaptureFailed (mapping the pairs to Charged,
Pending, Failed respectively); for every other `AttemptStatus` variant it
returns a `PreconditionFailed` error. -/
theorem capture_status_try_from_spec :
    (∀ s : storage_enums.AttemptStatus,
        (∃ c, storage_enums.CaptureStatus.foreign_try_from s = .ok c) ↔
          (s = .Charged ∨ s = .PartialCharged ∨ s = .Pending ∨
            s = .CaptureInitiated ∨ s = .Failure ∨ s = .CaptureFailed)) ∧
    storage_enums.CaptureStatus.foreign_try_from .Charged = .ok .Charged ∧
    storage_enums.CaptureStatus.foreign_try_from .PartialCharged =
      .ok .Charged ∧
    storage_enums.CaptureStatus.foreign_try_from .Pending = .ok .Pending ∧
    storage_enums.CaptureStatus.foreign_try_from .CaptureInitiated =
      .ok .Pending ∧
    storage_enums.CaptureStatus.foreign_try_from .Failure = .ok .Failed ∧
    storage_enums.CaptureStatus.foreign_try_from .CaptureFailed =
      .ok .Failed ∧
    (∀ s : storage_enums.AttemptStatus,
        ¬(s = .Charged ∨ s = .PartialCharged ∨ s = .Pending ∨
            s = .CaptureInitiated ∨ s = .Failure ∨ s = .CaptureFailed) →
          ∃ m, storage_enums.CaptureStatus.foreign_try_from s =
            .error (.PreconditionFailed m)) := by
  refine ⟨?_, rfl, rfl, rfl, rfl, rfl, rfl, ?_⟩
  · intro s
    cases s <;> simp [storage_enums.CaptureStatus.foreign_try_from]
  · intro s hs
    cases s <;> simp_all [storage_enums.CaptureStatus.foreign_try_from]

/-- Witness for C9 at a concrete input: `Started` is outside the admissible
set and is mapped to a `PreconditionFailed` error. -/
theorem capture_status_try_from_spec_witness :
    ∃ m, storage_enums.CaptureStatus.foreign_try_from .Started =
      .error (.PreconditionFailed m) :=
  capture_status_try_from_spec.2.2.2.2.2.2.2 .Started (by decide)

/-- Claim C10: the conversions between `payments::MandateType` and
`storage_enums::MandateDataType` form a round trip — `SingleUse` maps to
`SingleUse`, `MultiUse` to `MultiUse`, and the embedded `MandateAmountData`
fields amount, currency, start_date, end_date, metadata are copied unchanged
in both directions. -/
theorem mandate_type_round_trip :
    (∀ m : payments.MandateType,
        payments.MandateType.foreign_from
          (storage_enums.MandateDataType.foreign_from m) = m) ∧
    (∀ d : payments.MandateAmountData,
        storage_enums.MandateAmountData.foreign_from d =
          { amount := d.amount, currency := d.currency,
            start_date := d.start_date, end_date := d.end_date,
            metadata := d.metadata }) ∧
    (∀ d : storage_enums.MandateAmountData,
        payments.MandateAmountData.foreign_from d =
          { amount := d.amount, currency := d.currency,
            start_date := d.start_date, end_date := d.end_date,
            metadata := d.metadata }) := by
  refine ⟨?_, fun d => rfl, fun d => rfl⟩
  intro m
  cases m with
  | SingleUse d => rfl
  | MultiUse o => cases o <;> rfl

end Hyperswitch
